import Mathlib

/-!
Shallow embedding of the two icon-rendering scripts of the repository:
`src/scripts/create-icons-simple.py` (function `create_simple_icon`) and
`src/scripts/create-placeholder-icons.py` (function `create_icon`).

Both scripts draw on a PIL (Pillow) RGBA canvas with filled-ellipse and
filled-rectangle primitives and integer (Python `//`, i.e. floor) geometry.
The canvas is modelled as its construction trace: the background fill plus
the ordered list of draw calls; pixel values are recovered by interpreting
that trace in painter order.  PIL library primitives (`Image.new`,
`ImageDraw.rectangle`, `ImageDraw.ellipse`, color promotion in RGBA mode)
are modelled from the Pillow documentation, since the library itself is not
part of the repository.
-/

namespace TwitchIcons

/-- An RGBA color with channel values in `[0, 255]`. -/
structure Color where
  r : Nat
  g : Nat
  b : Nat
  a : Nat
deriving DecidableEq, Repr

/-- The script constant `PURPLE = (145, 70, 255)`; on an RGBA canvas PIL
promotes an RGB triple to a fully opaque RGBA color (alpha `255`). -/
def PURPLE : Color := ⟨145, 70, 255, 255⟩

/-- The script constant `WHITE = (255, 255, 255)` (also the meaning of the
named color string `'white'` used by `create_icon`), promoted to alpha `255`. -/
def WHITE : Color := ⟨255, 255, 255, 255⟩

/-- The script constant `DARK = (24, 24, 27)` of
`create-placeholder-icons.py`, promoted to alpha `255`. -/
def DARK : Color := ⟨24, 24, 27, 255⟩

/-- PIL image modes used by the scripts (both pass `'RGBA'`). -/
inductive Mode where
  | RGBA
deriving DecidableEq, Repr

/-- The error raised by the PIL primitives modelled here: `Image.new`
rejects negative dimensions with a `ValueError`. -/
inductive PILError where
  | valueError
deriving DecidableEq, Repr

/-- File-system side effects performed by a script function.  Only file
writes are recorded; console printing is not modelled.  The directory
prefix of a written path is resolved from the script's own location at run
time and is therefore not part of the model — only the file name is. -/
inductive Effect where
  | fileWrite (fileName : String) (format : String)
deriving DecidableEq, Repr

/-- Python's `//` operator: floor division.  For every positive divisor
(the only divisors occurring in the scripts: 2, 3, 4, 6, 8, 10, 12, 24, 32)
floor division coincides with Euclidean division `Int./`. -/
def pydiv (a b : Int) : Int := Int.fdiv a b

theorem pydiv_eq_ediv (a b : Int) (hb : 0 ≤ b) : pydiv a b = a / b :=
  Int.fdiv_eq_ediv a hb

/-- A drawing primitive recorded on the canvas, mirroring the two
`ImageDraw` calls used by the scripts: `ellipse(bbox, fill, outline, width)`
and `rectangle(bbox, fill)`.  Bounding boxes are `[x0, y0, x1, y1]` with
all edges inclusive, as in PIL. -/
inductive Shape where
  | ellipse (x0 y0 x1 y1 : Int) (fill : Option Color) (outline : Option Color) (width : Int)
  | rect (x0 y0 x1 y1 : Int) (fill : Color)
deriving DecidableEq, Repr

/-- Membership of pixel `(x, y)` in the closed ellipse inscribed in the
bounding box `[x0, y0, x1, y1]`: the standard ellipse inequality with
center `((x0+x1)/2, (y0+y1)/2)` and semi-axes `(x1-x0)/2`, `(y1-y0)/2`,
cleared of denominators.  This models PIL's filled-ellipse rasterization at
the precision the development needs; no theorem below depends on how PIL
treats individual boundary pixels. -/
def inEllipse (x0 y0 x1 y1 x y : Int) : Prop :=
  (2 * x - (x0 + x1)) ^ 2 * (y1 - y0) ^ 2 + (2 * y - (y0 + y1)) ^ 2 * (x1 - x0) ^ 2
    ≤ ((x1 - x0) * (y1 - y0)) ^ 2

instance (x0 y0 x1 y1 x y : Int) : Decidable (inEllipse x0 y0 x1 y1 x y) := by
  unfold inEllipse; infer_instance

/-- The color (if any) a single primitive paints at pixel `(x, y)`.
A rectangle paints its fill on the inclusive box.  An ellipse paints its
fill on the interior (the ellipse inset by the outline width) and its
outline color on the remaining band; with no outline the fill covers the
whole ellipse, and with no fill the interior is left untouched. -/
def Shape.paint : Shape → Int → Int → Option Color
  | .ellipse x0 y0 x1 y1 fill outline w, x, y =>
    if inEllipse x0 y0 x1 y1 x y then
      if inEllipse (x0 + w) (y0 + w) (x1 - w) (y1 - w) x y then fill
      else
        match outline with
        | some c => some c
        | none => fill
    else none
  | .rect x0 y0 x1 y1 fill, x, y =>
    if x0 ≤ x ∧ x ≤ x1 ∧ y0 ≤ y ∧ y ≤ y1 then some fill else none

/-- The four corner pixels of a rectangle primitive (empty for an
ellipse). -/
def Shape.corners : Shape → List (Int × Int)
  | .ellipse _ _ _ _ _ _ _ => []
  | .rect x0 y0 x1 y1 _ => [(x0, y0), (x0, y1), (x1, y0), (x1, y1)]

/-- All four bounding-box coordinates of a primitive lie on the canvas of
side `s`, i.e. in `[0, s - 1]` on both axes. -/
def Shape.within (s : Int) : Shape → Prop
  | .ellipse x0 y0 x1 y1 _ _ _ =>
      0 ≤ x0 ∧ x0 ≤ s - 1 ∧ 0 ≤ x1 ∧ x1 ≤ s - 1 ∧
      0 ≤ y0 ∧ y0 ≤ s - 1 ∧ 0 ≤ y1 ∧ y1 ≤ s - 1
  | .rect x0 y0 x1 y1 _ =>
      0 ≤ x0 ∧ x0 ≤ s - 1 ∧ 0 ≤ x1 ∧ x1 ≤ s - 1 ∧
      0 ≤ y0 ∧ y0 ≤ s - 1 ∧ 0 ≤ y1 ∧ y1 ≤ s - 1

instance (s : Int) (sh : Shape) : Decidable (Shape.within s sh) := by
  cases sh <;> (unfold Shape.within; infer_instance)

/-- An in-memory PIL image: mode, dimensions, the background fill of
`Image.new`, and the ordered trace of draw calls applied to it. -/
structure Image where
  mode : Mode
  width : Nat
  height : Nat
  background : Color
  shapes : List Shape
deriving DecidableEq, Repr

/-- `ImageDraw.Draw(img).ellipse(...)`: append an ellipse primitive. -/
def Image.drawEllipse (img : Image) (x0 y0 x1 y1 : Int)
    (fill outline : Option Color) (w : Int) : Image :=
  { img with shapes := img.shapes ++ [Shape.ellipse x0 y0 x1 y1 fill outline w] }

/-- `ImageDraw.Draw(img).rectangle(...)`: append a rectangle primitive. -/
def Image.drawRect (img : Image) (x0 y0 x1 y1 : Int) (fill : Color) : Image :=
  { img with shapes := img.shapes ++ [Shape.rect x0 y0 x1 y1 fill] }

/-- The color of pixel `(x, y)`: the background overpainted by the draw
calls in program order (a later call overrides an earlier one wherever it
paints). -/
def Image.pix (img : Image) (x y : Int) : Color :=
  img.shapes.foldl (fun c sh => (sh.paint x y).getD c) img.background

/-- `PIL.Image.new(mode, (w, h), bg)`: a fresh canvas entirely filled with
the background color.  Pillow rejects negative dimensions with a
`ValueError`; a `0 × 0` canvas is allowed. -/
def imageNew (mode : Mode) (w h : Int) (bg : Color) : Except PILError Image :=
  if 0 ≤ w ∧ 0 ≤ h then
    Except.ok { mode := mode, width := w.toNat, height := h.toNat,
                background := bg, shapes := [] }
  else Except.error PILError.valueError

/-! ## `create-icons-simple.py` (Variant A) -/

/-- `center = size // 2` -/
def center (size : Int) : Int := pydiv size 2

/-- `radius = size // 3` -/
def radius (size : Int) : Int := pydiv size 3

/-- `letter_size = size // 2` -/
def letter_size (size : Int) : Int := pydiv size 2

/-- `letter_x = center - letter_size // 4` -/
def letter_x (size : Int) : Int := center size - pydiv (letter_size size) 4

/-- `letter_y = center - letter_size // 3` -/
def letter_y (size : Int) : Int := center size - pydiv (letter_size size) 3

/-- `create_simple_icon(size)` of `create-icons-simple.py`: purple RGBA
background, white centered circle, then the two purple bars of the "T".
The function performs no I/O (the module-level loop saves the returned
image), so its effect trace is empty. -/
def create_simple_icon (size : Int) : Except PILError (Image × List Effect) :=
  match imageNew Mode.RGBA size size PURPLE with
  | Except.error e => Except.error e
  | Except.ok img0 =>
    let img1 := img0.drawEllipse (center size - radius size) (center size - radius size)
      (center size + radius size) (center size + radius size) (some WHITE) none 1
    let img2 := img1.drawRect (letter_x size - pydiv (letter_size size) 4) (letter_y size)
      (letter_x size + pydiv (letter_size size) 4) (letter_y size + pydiv (letter_size size) 8)
      PURPLE
    let img3 := img2.drawRect (letter_x size - pydiv (letter_size size) 12) (letter_y size)
      (letter_x size + pydiv (letter_size size) 12) (letter_y size + pydiv (letter_size size) 2)
      PURPLE
    Except.ok (img3, [])

/-! ## `create-placeholder-icons.py` (Variant B) -/

/-- `padding = size // 10` -/
def padding (size : Int) : Int := pydiv size 10

/-- `body_left = size // 4` -/
def body_left (size : Int) : Int := pydiv size 4

/-- `body_top = size // 4` -/
def body_top (size : Int) : Int := pydiv size 4

/-- `body_right = size * 3 // 4` -/
def body_right (size : Int) : Int := pydiv (size * 3) 4

/-- `body_bottom = size * 3 // 4` -/
def body_bottom (size : Int) : Int := pydiv (size * 3) 4

/-- `box_width = size // 12` -/
def box_width (size : Int) : Int := pydiv size 12

/-- `box_height = size // 6` -/
def box_height (size : Int) : Int := pydiv size 6

/-- `box1_x = size // 2 - size // 8` -/
def box1_x (size : Int) : Int := pydiv size 2 - pydiv size 8

/-- `box2_x = size // 2 + size // 24` -/
def box2_x (size : Int) : Int := pydiv size 2 + pydiv size 24

/-- `box_y = size // 2 - size // 12` -/
def box_y (size : Int) : Int := pydiv size 2 - pydiv size 12

/-- `create_icon(size)` of `create-placeholder-icons.py`: purple RGBA
background, padded purple circle with dark outline, white body rectangle,
two purple "chat" boxes; finally the function itself saves the image as
`icon<size>.png` (PNG format), recorded in the effect trace. -/
def create_icon (size : Int) : Except PILError (Image × List Effect) :=
  match imageNew Mode.RGBA size size PURPLE with
  | Except.error e => Except.error e
  | Except.ok img0 =>
    let img1 := img0.drawEllipse (padding size) (padding size)
      (size - padding size) (size - padding size)
      (some PURPLE) (some DARK) (max 1 (pydiv size 32))
    let img2 := img1.drawRect (body_left size) (body_top size)
      (body_right size) (body_bottom size) WHITE
    let img3 := img2.drawRect (box1_x size) (box_y size)
      (box1_x size + box_width size) (box_y size + box_height size) PURPLE
    let img4 := img3.drawRect (box2_x size) (box_y size)
      (box2_x size + box_width size) (box_y size + box_height size) PURPLE
    Except.ok (img4, [Effect.fileWrite ("icon" ++ toString size ++ ".png") "PNG"])

/-! ## Evaluation lemmas -/

/-- For a nonnegative size, `create_simple_icon` succeeds and its result is
the explicit draw trace of the script. -/
theorem create_simple_icon_eq (s : Int) (hs : 0 ≤ s) :
    create_simple_icon s = Except.ok
      ({ mode := Mode.RGBA, width := s.toNat, height := s.toNat, background := PURPLE,
         shapes := [Shape.ellipse (center s - radius s) (center s - radius s)
                      (center s + radius s) (center s + radius s) (some WHITE) none 1,
                    Shape.rect (letter_x s - pydiv (letter_size s) 4) (letter_y s)
                      (letter_x s + pydiv (letter_size s) 4)
                      (letter_y s + pydiv (letter_size s) 8) PURPLE,
                    Shape.rect (letter_x s - pydiv (letter_size s) 12) (letter_y s)
                      (letter_x s + pydiv (letter_size s) 12)
                      (letter_y s + pydiv (letter_size s) 2) PURPLE] }, []) := by
  simp [create_simple_icon, imageNew, hs, Image.drawEllipse, Image.drawRect]

/-- For a nonnegative size, `create_icon` succeeds with the explicit draw
trace of the script and a single file write. -/
theorem create_icon_eq (s : Int) (hs : 0 ≤ s) :
    create_icon s = Except.ok
      ({ mode := Mode.RGBA, width := s.toNat, height := s.toNat, background := PURPLE,
         shapes := [Shape.ellipse (padding s) (padding s) (s - padding s) (s - padding s)
                      (some PURPLE) (some DARK) (max 1 (pydiv s 32)),
                    Shape.rect (body_left s) (body_top s) (body_right s) (body_bottom s) WHITE,
                    Shape.rect (box1_x s) (box_y s) (box1_x s + box_width s)
                      (box_y s + box_height s) PURPLE,
                    Shape.rect (box2_x s) (box_y s) (box2_x s + box_width s)
                      (box_y s + box_height s) PURPLE] },
       [Effect.fileWrite ("icon" ++ toString s ++ ".png") "PNG"]) := by
  simp [create_icon, imageNew, hs, Image.drawEllipse, Image.drawRect]

/-! ## Floor division rewrites for the divisors used by the scripts -/

theorem pydiv_two (a : Int) : pydiv a 2 = a / 2 := pydiv_eq_ediv a 2 (by norm_num)

theorem pydiv_three (a : Int) : pydiv a 3 = a / 3 := pydiv_eq_ediv a 3 (by norm_num)

theorem pydiv_four (a : Int) : pydiv a 4 = a / 4 := pydiv_eq_ediv a 4 (by norm_num)

theorem pydiv_six (a : Int) : pydiv a 6 = a / 6 := pydiv_eq_ediv a 6 (by norm_num)

theorem pydiv_eight (a : Int) : pydiv a 8 = a / 8 := pydiv_eq_ediv a 8 (by norm_num)

theorem pydiv_ten (a : Int) : pydiv a 10 = a / 10 := pydiv_eq_ediv a 10 (by norm_num)

theorem pydiv_twelve (a : Int) : pydiv a 12 = a / 12 := pydiv_eq_ediv a 12 (by norm_num)

theorem pydiv_twentyfour (a : Int) : pydiv a 24 = a / 24 := pydiv_eq_ediv a 24 (by norm_num)

theorem pydiv_thirtytwo (a : Int) : pydiv a 32 = a / 32 := pydiv_eq_ediv a 32 (by norm_num)

/-! ## Claim theorems -/

/-- C1: for every size `s` in `{16, 32, 48, 128}`, both renderers
(`create_simple_icon` in Variant A, `create_icon` in Variant B) produce an
image of exactly `s × s` pixels in RGBA mode. -/
theorem C1_render_dimensions (s : Int) (hs : s ∈ ([16, 32, 48, 128] : List Int)) :
    ((create_simple_icon s).map fun p => (p.1.mode, p.1.width, p.1.height))
        = Except.ok (Mode.RGBA, s.toNat, s.toNat)
    ∧ ((create_icon s).map fun p => (p.1.mode, p.1.width, p.1.height))
        = Except.ok (Mode.RGBA, s.toNat, s.toNat) := by
  fin_cases hs <;> exact ⟨rfl, rfl⟩

/-- Witness for C1 at size 16. -/
theorem C1_render_dimensions_witness :
    ((create_simple_icon 16).map fun p => (p.1.mode, p.1.width, p.1.height))
        = Except.ok (Mode.RGBA, 16, 16)
    ∧ ((create_icon 16).map fun p => (p.1.mode, p.1.width, p.1.height))
        = Except.ok (Mode.RGBA, 16, 16) :=
  C1_render_dimensions 16 (by decide)

/-- C2 counterexample: at the non-positive size `0`, both renderers return
an (empty `0 × 0`) image instead of failing — no `InvalidSizeError` is
raised by either script. -/
theorem C2_counterexample :
    ((create_simple_icon 0).map fun p => (p.1.width, p.1.height)) = Except.ok (0, 0)
    ∧ ((create_icon 0).map fun p => (p.1.width, p.1.height)) = Except.ok (0, 0) :=
  ⟨rfl, rfl⟩

/-- C2 amended: neither script validates its size argument; for `size = 0`
both renderers succeed and return a `0 × 0` image, while for negative sizes
the underlying `Image.new` rejects the dimensions with the library's
`ValueError` — no dedicated `InvalidSizeError` exists or is raised. -/
theorem C2_no_size_validation (s : Int) (hs : s ≤ 0) :
    (s < 0 → create_simple_icon s = Except.error PILError.valueError
           ∧ create_icon s = Except.error PILError.valueError)
    ∧ (s = 0 → ((create_simple_icon s).map fun p => (p.1.width, p.1.height)) = Except.ok (0, 0)
           ∧ ((create_icon s).map fun p => (p.1.width, p.1.height)) = Except.ok (0, 0)) := by
  constructor
  · intro hneg
    have hcond : ¬ (0 ≤ s) := by omega
    constructor
    · simp [create_simple_icon, imageNew, hcond]
    · simp [create_icon, imageNew, hcond]
  · rintro rfl
    exact ⟨rfl, rfl⟩

/-- Witness for C2 (amended) at size `-1`. -/
theorem C2_no_size_validation_witness :
    create_simple_icon (-1) = Except.error PILError.valueError
    ∧ create_icon (-1) = Except.error PILError.valueError :=
  (C2_no_size_validation (-1) (by norm_num)).1 (by norm_num)

/-- C3: in Variant A, for every valid (positive) size, the emblem is a
filled white circle whose bounding box is centered at `(size/2, size/2)`
with radius `size/3`, followed by two purple filled rectangles positioned
relative to the `letter_size = size/2` anchor `(letter_x, letter_y)`
derived from the center; the two rectangles overlap (both contain the
anchor pixel), forming the T-glyph. -/
theorem C3_variantA_emblem (s : Int) (hs : 0 < s) :
    ((create_simple_icon s).map fun p => p.1.shapes) = Except.ok
      [Shape.ellipse (pydiv s 2 - pydiv s 3) (pydiv s 2 - pydiv s 3)
         (pydiv s 2 + pydiv s 3) (pydiv s 2 + pydiv s 3) (some WHITE) none 1,
       Shape.rect (letter_x s - pydiv (letter_size s) 4) (letter_y s)
         (letter_x s + pydiv (letter_size s) 4) (letter_y s + pydiv (letter_size s) 8) PURPLE,
       Shape.rect (letter_x s - pydiv (letter_size s) 12) (letter_y s)
         (letter_x s + pydiv (letter_size s) 12) (letter_y s + pydiv (letter_size s) 2) PURPLE]
    ∧ (pydiv s 2 - pydiv s 3) + (pydiv s 2 + pydiv s 3) = 2 * pydiv s 2
    ∧ (pydiv s 2 + pydiv s 3) - (pydiv s 2 - pydiv s 3) = 2 * pydiv s 3
    ∧ letter_size s = pydiv s 2
    ∧ (Shape.rect (letter_x s - pydiv (letter_size s) 4) (letter_y s)
         (letter_x s + pydiv (letter_size s) 4) (letter_y s + pydiv (letter_size s) 8)
         PURPLE).paint (letter_x s) (letter_y s) = some PURPLE
    ∧ (Shape.rect (letter_x s - pydiv (letter_size s) 12) (letter_y s)
         (letter_x s + pydiv (letter_size s) 12) (letter_y s + pydiv (letter_size s) 2)
         PURPLE).paint (letter_x s) (letter_y s) = some PURPLE := by
  refine ⟨?_, by ring, by ring, rfl, ?_, ?_⟩
  · rw [create_simple_icon_eq s hs.le]
    simp [Except.map, center, radius]
  · simp only [Shape.paint, letter_size, pydiv_two, pydiv_four, pydiv_eight]
    rw [if_pos]
    exact ⟨by omega, by omega, le_refl _, by omega⟩
  · simp only [Shape.paint, letter_size, pydiv_two, pydiv_twelve]
    rw [if_pos]
    exact ⟨by omega, by omega, le_refl _, by omega⟩

/-- Witness for C3 at size 16. -/
theorem C3_variantA_emblem_witness :
    ((create_simple_icon 16).map fun p => p.1.shapes) = Except.ok
      [Shape.ellipse (pydiv 16 2 - pydiv 16 3) (pydiv 16 2 - pydiv 16 3)
         (pydiv 16 2 + pydiv 16 3) (pydiv 16 2 + pydiv 16 3) (some WHITE) none 1,
       Shape.rect (letter_x 16 - pydiv (letter_size 16) 4) (letter_y 16)
         (letter_x 16 + pydiv (letter_size 16) 4) (letter_y 16 + pydiv (letter_size 16) 8) PURPLE,
       Shape.rect (letter_x 16 - pydiv (letter_size 16) 12) (letter_y 16)
         (letter_x 16 + pydiv (letter_size 16) 12) (letter_y 16 + pydiv (letter_size 16) 2) PURPLE]
    ∧ (pydiv 16 2 - pydiv 16 3) + (pydiv 16 2 + pydiv 16 3) = 2 * pydiv 16 2
    ∧ (pydiv 16 2 + pydiv 16 3) - (pydiv 16 2 - pydiv 16 3) = 2 * pydiv 16 3
    ∧ letter_size 16 = pydiv 16 2
    ∧ (Shape.rect (letter_x 16 - pydiv (letter_size 16) 4) (letter_y 16)
         (letter_x 16 + pydiv (letter_size 16) 4) (letter_y 16 + pydiv (letter_size 16) 8)
         PURPLE).paint (letter_x 16) (letter_y 16) = some PURPLE
    ∧ (Shape.rect (letter_x 16 - pydiv (letter_size 16) 12) (letter_y 16)
         (letter_x 16 + pydiv (letter_size 16) 12) (letter_y 16 + pydiv (letter_size 16) 2)
         PURPLE).paint (letter_x 16) (letter_y 16) = some PURPLE :=
  C3_variantA_emblem 16 (by norm_num)

/-- C4: in Variant B, for every valid (positive) size, the drawing is a
circle with padding `size/10` from each edge filled purple and outlined
dark with width `max(1, size/32)`, a centered white rectangle from
`size/4` to `3*size/4` on both axes, and two purple boxes each of width
`size/12` and height `size/6` (floored arithmetic throughout). -/
theorem C4_variantB_shapes (s : Int) (hs : 0 < s) :
    ((create_icon s).map fun p => p.1.shapes) = Except.ok
      [Shape.ellipse (pydiv s 10) (pydiv s 10) (s - pydiv s 10) (s - pydiv s 10)
         (some PURPLE) (some DARK) (max 1 (pydiv s 32)),
       Shape.rect (pydiv s 4) (pydiv s 4) (pydiv (s * 3) 4) (pydiv (s * 3) 4) WHITE,
       Shape.rect (box1_x s) (box_y s) (box1_x s + pydiv s 12) (box_y s + pydiv s 6) PURPLE,
       Shape.rect (box2_x s) (box_y s) (box2_x s + pydiv s 12) (box_y s + pydiv s 6) PURPLE]
    ∧ (box1_x s + pydiv s 12) - box1_x s = pydiv s 12
    ∧ (box2_x s + pydiv s 12) - box2_x s = pydiv s 12
    ∧ (box_y s + pydiv s 6) - box_y s = pydiv s 6 := by
  refine ⟨?_, by ring, by ring, by ring⟩
  rw [create_icon_eq s hs.le]
  simp [Except.map, padding, body_left, body_top, body_right, body_bottom, box_width, box_height]

/-- Witness for C4 at size 16. -/
theorem C4_variantB_shapes_witness :
    ((create_icon 16).map fun p => p.1.shapes) = Except.ok
      [Shape.ellipse (pydiv 16 10) (pydiv 16 10) (16 - pydiv 16 10) (16 - pydiv 16 10)
         (some PURPLE) (some DARK) (max 1 (pydiv 16 32)),
       Shape.rect (pydiv 16 4) (pydiv 16 4) (pydiv (16 * 3) 4) (pydiv (16 * 3) 4) WHITE,
       Shape.rect (box1_x 16) (box_y 16) (box1_x 16 + pydiv 16 12) (box_y 16 + pydiv 16 6) PURPLE,
       Shape.rect (box2_x 16) (box_y 16) (box2_x 16 + pydiv 16 12) (box_y 16 + pydiv 16 6) PURPLE]
    ∧ (box1_x 16 + pydiv 16 12) - box1_x 16 = pydiv 16 12
    ∧ (box2_x 16 + pydiv 16 12) - box2_x 16 = pydiv 16 12
    ∧ (box_y 16 + pydiv 16 6) - box_y 16 = pydiv 16 6 :=
  C4_variantB_shapes 16 (by norm_num)

/-- C5 counterexample: at size 16 the two chat boxes drawn by `create_icon`
have horizontal extents `[6, 7]` and `[8, 9]`, but the mirror image of
`[6, 7]` about `x = 16/2` is `[16 - 7, 16 - 6] = [9, 10]`, which is not the
second box's extent — the claimed exact mirror symmetry fails. -/
theorem C5_counterexample :
    ((create_icon 16).map fun p => p.1.shapes.drop 2) = Except.ok
      [Shape.rect 6 7 7 9 PURPLE, Shape.rect 8 7 9 9 PURPLE]
    ∧ box1_x 16 = 6 ∧ box1_x 16 + box_width 16 = 7
    ∧ box2_x 16 = 8 ∧ box2_x 16 + box_width 16 = 9
    ∧ ¬ ((box2_x 16, box2_x 16 + box_width 16)
          = (16 - (box1_x 16 + box_width 16), 16 - box1_x 16)) := by
  refine ⟨rfl, rfl, rfl, rfl, rfl, by decide⟩

/-- C5 amended: for every size in `{16, 32, 48, 128}`, the two chat boxes
share the same vertical extent and the same width `size/12`, and the second
box's horizontal extent is the mirror image of the first box's extent about
`x = size/2` only up to a rounding offset of at most one pixel (the offset
is 0 at size 48 and 1 at sizes 16, 32 and 128). -/
theorem C5_mirror_within_one_pixel (s : Int) (hs : s ∈ ([16, 32, 48, 128] : List Int)) :
    ((create_icon s).map fun p => p.1.shapes.drop 2) = Except.ok
      [Shape.rect (box1_x s) (box_y s) (box1_x s + box_width s) (box_y s + box_height s) PURPLE,
       Shape.rect (box2_x s) (box_y s) (box2_x s + box_width s) (box_y s + box_height s) PURPLE]
    ∧ 0 ≤ (s - (box1_x s + box_width s)) - box2_x s
    ∧ (s - (box1_x s + box_width s)) - box2_x s ≤ 1
    ∧ (s - box1_x s) - (box2_x s + box_width s) = (s - (box1_x s + box_width s)) - box2_x s := by
  fin_cases hs <;> exact ⟨rfl, by decide, by decide, by ring⟩

/-- Witness for C5 (amended) at size 16. -/
theorem C5_mirror_within_one_pixel_witness :
    ((create_icon 16).map fun p => p.1.shapes.drop 2) = Except.ok
      [Shape.rect (box1_x 16) (box_y 16) (box1_x 16 + box_width 16)
         (box_y 16 + box_height 16) PURPLE,
       Shape.rect (box2_x 16) (box_y 16) (box2_x 16 + box_width 16)
         (box_y 16 + box_height 16) PURPLE]
    ∧ 0 ≤ (16 - (box1_x 16 + box_width 16)) - box2_x 16
    ∧ (16 - (box1_x 16 + box_width 16)) - box2_x 16 ≤ 1
    ∧ (16 - box1_x 16) - (box2_x 16 + box_width 16)
        = (16 - (box1_x 16 + box_width 16)) - box2_x 16 :=
  C5_mirror_within_one_pixel 16 (by decide)

/-- C7: both renderers are deterministic — the output is a pure function of
the size, so two invocations at the same size yield the same result, and
any two images obtained from the same size agree pixel for pixel. -/
theorem C7_deterministic (s : Int) :
    create_simple_icon s = create_simple_icon s
    ∧ create_icon s = create_icon s
    ∧ (∀ img fx img' fx', create_simple_icon s = Except.ok (img, fx) →
         create_simple_icon s = Except.ok (img', fx') →
         img = img' ∧ ∀ x y, img.pix x y = img'.pix x y)
    ∧ (∀ img fx img' fx', create_icon s = Except.ok (img, fx) →
         create_icon s = Except.ok (img', fx') →
         img = img' ∧ ∀ x y, img.pix x y = img'.pix x y) := by
  refine ⟨rfl, rfl, ?_, ?_⟩ <;>
    · intro img fx img' fx' h1 h2
      rw [h1] at h2
      obtain ⟨rfl, rfl⟩ : img = img' ∧ fx = fx' := by
        simpa using h2
      exact ⟨rfl, fun _ _ => rfl⟩

/-- Witness for C7 at size 16. -/
theorem C7_deterministic_witness :
    create_simple_icon 16 = create_simple_icon 16
    ∧ create_icon 16 = create_icon 16
    ∧ (∀ img fx img' fx', create_simple_icon 16 = Except.ok (img, fx) →
         create_simple_icon 16 = Except.ok (img', fx') →
         img = img' ∧ ∀ x y, img.pix x y = img'.pix x y)
    ∧ (∀ img fx img' fx', create_icon 16 = Except.ok (img, fx) →
         create_icon 16 = Except.ok (img', fx') →
         img = img' ∧ ∀ x y, img.pix x y = img'.pix x y) :=
  C7_deterministic 16

/-- C8 counterexample: at size 16, Variant B's `create_icon` itself
performs a file write (`icon16.png`) as part of rendering, so its effect
trace is not empty — the claim that the render operation performs no file
write fails for Variant B. -/
theorem C8_counterexample :
    ((create_icon 16).map fun p => p.2) = Except.ok [Effect.fileWrite "icon16.png" "PNG"]
    ∧ [Effect.fileWrite "icon16.png" "PNG"] ≠ ([] : List Effect) :=
  ⟨rfl, by decide⟩

/-- C8 amended: for every nonnegative size, Variant A's
`create_simple_icon` performs no I/O (the module-level loop writes the file
afterwards), while Variant B's `create_icon` itself writes exactly one file
`icon<size>.png` as its final step — the no-side-effect contract holds only
for Variant A. -/
theorem C8_effects (s : Int) (hs : 0 ≤ s) :
    ((create_simple_icon s).map fun p => p.2) = Except.ok ([] : List Effect)
    ∧ ((create_icon s).map fun p => p.2)
        = Except.ok [Effect.fileWrite ("icon" ++ toString s ++ ".png") "PNG"] := by
  rw [create_simple_icon_eq s hs, create_icon_eq s hs]
  exact ⟨rfl, rfl⟩

/-- Witness for C8 (amended) at size 16. -/
theorem C8_effects_witness :
    ((create_simple_icon 16).map fun p => p.2) = Except.ok ([] : List Effect)
    ∧ ((create_icon 16).map fun p => p.2)
        = Except.ok [Effect.fileWrite ("icon" ++ toString (16 : Int) ++ ".png") "PNG"] :=
  C8_effects 16 (by norm_num)

/-- C6: for every size `≥ 16`, every bounding-box coordinate of every
primitive drawn by either variant lies within the canvas bounds
`[0, size - 1]` on both axes. -/
theorem C6_geometry_within_canvas (s : Int) (hs : 16 ≤ s) :
    (∀ img fx, create_simple_icon s = Except.ok (img, fx) →
       ∀ sh ∈ img.shapes, Shape.within s sh)
    ∧ (∀ img fx, create_icon s = Except.ok (img, fx) →
       ∀ sh ∈ img.shapes, Shape.within s sh) := by
  have h0 : (0 : Int) ≤ s := by omega
  constructor
  · intro img fx h sh hsh
    rw [create_simple_icon_eq s h0] at h
    simp only [Except.ok.injEq, Prod.mk.injEq] at h
    obtain ⟨rfl, rfl⟩ := h
    simp only [List.mem_cons, List.not_mem_nil, or_false] at hsh
    rcases hsh with rfl | rfl | rfl <;>
      · simp only [Shape.within, center, radius, letter_x, letter_y, letter_size,
          pydiv_two, pydiv_three, pydiv_four, pydiv_eight, pydiv_twelve]
        omega
  · intro img fx h sh hsh
    rw [create_icon_eq s h0] at h
    simp only [Except.ok.injEq, Prod.mk.injEq] at h
    obtain ⟨rfl, rfl⟩ := h
    simp only [List.mem_cons, List.not_mem_nil, or_false] at hsh
    rcases hsh with rfl | rfl | rfl | rfl <;>
      · simp only [Shape.within, padding, body_left, body_top, body_right, body_bottom,
          box1_x, box2_x, box_y, box_width, box_height,
          pydiv_two, pydiv_three, pydiv_four, pydiv_six, pydiv_eight, pydiv_ten,
          pydiv_twelve, pydiv_twentyfour]
        omega

/-- Witness for C6 at size 16. -/
theorem C6_geometry_within_canvas_witness :
    (∀ img fx, create_simple_icon 16 = Except.ok (img, fx) →
       ∀ sh ∈ img.shapes, Shape.within 16 sh)
    ∧ (∀ img fx, create_icon 16 = Except.ok (img, fx) →
       ∀ sh ∈ img.shapes, Shape.within 16 sh) :=
  C6_geometry_within_canvas 16 (by norm_num)

/-! ## Helpers for the opacity claim -/

theorem getD_alpha (o : Option Color) (d : Color)
    (ho : ∀ c, o = some c → c.a = 255) (hd : d.a = 255) : (o.getD d).a = 255 := by
  cases o with
  | none => simpa using hd
  | some c => exact ho c rfl

theorem foldl_alpha (x y : Int) (l : List Shape) :
    ∀ b : Color, b.a = 255 →
    (∀ sh ∈ l, ∀ c, sh.paint x y = some c → c.a = 255) →
    (l.foldl (fun c sh => (sh.paint x y).getD c) b).a = 255 := by
  induction l with
  | nil => intro b hb _; simpa using hb
  | cons hd tl ih =>
    intro b hb hl
    simp only [List.foldl_cons]
    refine ih _ ?_ ?_
    · exact getD_alpha _ _ (fun c hc => hl hd (by simp) c hc) hb
    · intro sh hsh c hc
      exact hl sh (by simp [hsh]) c hc

theorem pix_alpha (img : Image) (hbg : img.background.a = 255)
    (hsh : ∀ sh ∈ img.shapes, ∀ x y c, sh.paint x y = some c → c.a = 255)
    (x y : Int) : (img.pix x y).a = 255 :=
  foldl_alpha x y img.shapes img.background hbg (fun sh h c hc => hsh sh h x y c hc)

theorem ellipse_paint_alpha (x0 y0 x1 y1 w x y : Int) (f o : Option Color)
    (hf : ∀ c, f = some c → c.a = 255) (ho : ∀ c, o = some c → c.a = 255) :
    ∀ c, (Shape.ellipse x0 y0 x1 y1 f o w).paint x y = some c → c.a = 255 := by
  intro c hc
  simp only [Shape.paint] at hc
  split at hc
  · split at hc
    · exact hf c hc
    · cases o with
      | none => exact hf c hc
      | some oc =>
        injection hc with h
        rw [← h]
        exact ho oc rfl
  · exact absurd hc (by simp)

theorem rect_paint_alpha (x0 y0 x1 y1 x y : Int) (f : Color) (hf : f.a = 255) :
    ∀ c, (Shape.rect x0 y0 x1 y1 f).paint x y = some c → c.a = 255 := by
  intro c hc
  simp only [Shape.paint] at hc
  split at hc
  · injection hc with h
    rw [← h]
    exact hf
  · exact absurd hc (by simp)

/-- C9: for every size in `{16, 32, 48, 128}`, every pixel of the image
rendered by either variant is fully opaque (alpha `255`): the background
and every drawing color are fully opaque, so the RGBA image contains no
transparency. -/
theorem C9_fully_opaque (s : Int) (hs : s ∈ ([16, 32, 48, 128] : List Int)) :
    (∀ img fx, create_simple_icon s = Except.ok (img, fx) →
       ∀ x y, (img.pix x y).a = 255)
    ∧ (∀ img fx, create_icon s = Except.ok (img, fx) →
       ∀ x y, (img.pix x y).a = 255) := by
  have h0 : (0 : Int) ≤ s := by fin_cases hs <;> norm_num
  constructor
  · intro img fx h x y
    rw [create_simple_icon_eq s h0] at h
    simp only [Except.ok.injEq, Prod.mk.injEq] at h
    obtain ⟨rfl, rfl⟩ := h
    refine pix_alpha _ rfl ?_ x y
    intro sh hsh x' y' c hc
    simp only [List.mem_cons, List.not_mem_nil, or_false] at hsh
    rcases hsh with rfl | rfl | rfl
    · refine ellipse_paint_alpha _ _ _ _ _ _ _ _ _ ?_ ?_ c hc
      · intro c' hc'
        injection hc' with h'
        rw [← h']
        rfl
      · intro c' hc'
        exact Option.noConfusion hc'
    · exact rect_paint_alpha _ _ _ _ _ _ _ rfl c hc
    · exact rect_paint_alpha _ _ _ _ _ _ _ rfl c hc
  · intro img fx h x y
    rw [create_icon_eq s h0] at h
    simp only [Except.ok.injEq, Prod.mk.injEq] at h
    obtain ⟨rfl, rfl⟩ := h
    refine pix_alpha _ rfl ?_ x y
    intro sh hsh x' y' c hc
    simp only [List.mem_cons, List.not_mem_nil, or_false] at hsh
    rcases hsh with rfl | rfl | rfl | rfl
    · refine ellipse_paint_alpha _ _ _ _ _ _ _ _ _ ?_ ?_ c hc
      · intro c' hc'
        injection hc' with h'
        rw [← h']
        rfl
      · intro c' hc'
        injection hc' with h'
        rw [← h']
        rfl
    · exact rect_paint_alpha _ _ _ _ _ _ _ rfl c hc
    · exact rect_paint_alpha _ _ _ _ _ _ _ rfl c hc
    · exact rect_paint_alpha _ _ _ _ _ _ _ rfl c hc

/-- Witness for C9 at size 16. -/
theorem C9_fully_opaque_witness :
    (∀ img fx, create_simple_icon 16 = Except.ok (img, fx) →
       ∀ x y, (img.pix x y).a = 255)
    ∧ (∀ img fx, create_icon 16 = Except.ok (img, fx) →
       ∀ x y, (img.pix x y).a = 255) :=
  C9_fully_opaque 16 (by decide)

/-! ## Arithmetic bounds for the glyph-inside-circle claim.  In each lemma
`u` and `v` play the role of a corner's horizontal and vertical offset from
the canvas center `s / 2`, and `s / 3` is the circle radius. -/

theorem A_key (s u v : Int) (hs : 16 ≤ s)
    (hu : u ^ 2 ≤ (2 * (s / 2 / 4)) ^ 2) (hv : v ^ 2 ≤ (s / 2 / 3) ^ 2) :
    u ^ 2 + v ^ 2 ≤ (s / 3) ^ 2 := by
  by_cases h20 : s ≤ 20
  · have hcase : s = 16 ∨ s = 17 ∨ s = 18 ∨ s = 19 ∨ s = 20 := by omega
    rcases hcase with rfl | rfl | rfl | rfl | rfl <;> (norm_num at hu hv ⊢) <;> linarith
  · have ha1 : 0 ≤ 8 * (s / 2 / 4) := by omega
    have ha2 : 8 * (s / 2 / 4) ≤ s := by omega
    have hb1 : 0 ≤ 6 * (s / 2 / 3) := by omega
    have hb2 : 6 * (s / 2 / 3) ≤ s := by omega
    have hr1 : 0 ≤ s - 2 := by omega
    have hr2 : s - 2 ≤ 3 * (s / 3) := by omega
    have h3 := pow_le_pow_left₀ ha1 ha2 2
    have h4 := pow_le_pow_left₀ hb1 hb2 2
    have h5 := pow_le_pow_left₀ hr1 hr2 2
    nlinarith [hu, hv, h3, h4, h5,
      mul_nonneg (by omega : (0:Int) ≤ s - 21) (by omega : (0:Int) ≤ 3 * s - 1)]

theorem B1_key (s u v : Int) (hs : 16 ≤ s)
    (hu : u ^ 2 ≤ (s / 2 / 4 + s / 2 / 12) ^ 2) (hv : v ^ 2 ≤ (s / 2 / 3) ^ 2) :
    u ^ 2 + v ^ 2 ≤ (s / 3) ^ 2 := by
  have hc1 : 0 ≤ 6 * (s / 2 / 4 + s / 2 / 12) := by omega
  have hc2 : 6 * (s / 2 / 4 + s / 2 / 12) ≤ s := by omega
  have hb1 : 0 ≤ 6 * (s / 2 / 3) := by omega
  have hb2 : 6 * (s / 2 / 3) ≤ s := by omega
  have hr1 : 0 ≤ s - 2 := by omega
  have hr2 : s - 2 ≤ 3 * (s / 3) := by omega
  have h3 := pow_le_pow_left₀ hc1 hc2 2
  have h4 := pow_le_pow_left₀ hb1 hb2 2
  have h5 := pow_le_pow_left₀ hr1 hr2 2
  nlinarith [hu, hv, h3, h4, h5,
    mul_nonneg (by omega : (0:Int) ≤ s - 16) (by omega : (0:Int) ≤ s + 8)]

theorem B2_key (s u v : Int) (hs : 16 ≤ s)
    (hu : u ^ 2 ≤ (s / 2 / 4 + s / 2 / 12) ^ 2) (hv : v ^ 2 ≤ (s / 2 / 2 - s / 2 / 3) ^ 2) :
    u ^ 2 + v ^ 2 ≤ (s / 3) ^ 2 := by
  have hc1 : 0 ≤ 6 * (s / 2 / 4 + s / 2 / 12) := by omega
  have hc2 : 6 * (s / 2 / 4 + s / 2 / 12) ≤ s := by omega
  have hd1 : 0 ≤ 12 * (s / 2 / 2 - s / 2 / 3) := by omega
  have hd2 : 12 * (s / 2 / 2 - s / 2 / 3) ≤ s + 10 := by omega
  have hr1 : 0 ≤ s - 2 := by omega
  have hr2 : s - 2 ≤ 3 * (s / 3) := by omega
  have h3 := pow_le_pow_left₀ hc1 hc2 2
  have h4 := pow_le_pow_left₀ hd1 hd2 2
  have h5 := pow_le_pow_left₀ hr1 hr2 2
  nlinarith [hu, hv, h3, h4, h5,
    mul_nonneg (by omega : (0:Int) ≤ s - 16) (by omega : (0:Int) ≤ 11 * s + 92)]

/-- C10: in Variant A, for every size `≥ 16`, every corner of each of the
two purple T-glyph rectangles lies at (squared) distance at most the
(squared) radius `size/3` from the canvas center `(size/2, size/2)`, so
the glyph rectangles lie entirely within the white circle. -/
theorem C10_glyph_within_circle (s : Int) (hs : 16 ≤ s) :
    ∀ img fx, create_simple_icon s = Except.ok (img, fx) →
      ∀ sh ∈ img.shapes, ∀ p ∈ sh.corners,
        (p.1 - center s) ^ 2 + (p.2 - center s) ^ 2 ≤ (radius s) ^ 2 := by
  intro img fx h sh hsh p hp
  rw [create_simple_icon_eq s (by omega)] at h
  simp only [Except.ok.injEq, Prod.mk.injEq] at h
  obtain ⟨rfl, rfl⟩ := h
  simp only [List.mem_cons, List.not_mem_nil, or_false] at hsh
  rcases hsh with rfl | rfl | rfl
  · simp [Shape.corners] at hp
  · simp only [Shape.corners, List.mem_cons, List.not_mem_nil, or_false] at hp
    rcases hp with rfl | rfl | rfl | rfl <;>
      · simp only [center, radius, letter_x, letter_y, letter_size,
          pydiv_two, pydiv_three, pydiv_four, pydiv_eight]
        refine A_key s _ _ hs ?_ ?_ <;> exact sq_le_sq' (by omega) (by omega)
  · simp only [Shape.corners, List.mem_cons, List.not_mem_nil, or_false] at hp
    rcases hp with rfl | rfl | rfl | rfl
    · simp only [center, radius, letter_x, letter_y, letter_size,
        pydiv_two, pydiv_three, pydiv_four, pydiv_twelve]
      refine B1_key s _ _ hs ?_ ?_ <;> exact sq_le_sq' (by omega) (by omega)
    · simp only [center, radius, letter_x, letter_y, letter_size,
        pydiv_two, pydiv_three, pydiv_four, pydiv_twelve]
      refine B2_key s _ _ hs ?_ ?_ <;> exact sq_le_sq' (by omega) (by omega)
    · simp only [center, radius, letter_x, letter_y, letter_size,
        pydiv_two, pydiv_three, pydiv_four, pydiv_twelve]
      refine B1_key s _ _ hs ?_ ?_ <;> exact sq_le_sq' (by omega) (by omega)
    · simp only [center, radius, letter_x, letter_y, letter_size,
        pydiv_two, pydiv_three, pydiv_four, pydiv_twelve]
      refine B2_key s _ _ hs ?_ ?_ <;> exact sq_le_sq' (by omega) (by omega)

/-- Witness for C10 at size 16: the top-left corner `(4, 6)` of the
horizontal T-bar is within squared distance `radius 16 ^ 2 = 25` of the
center `(8, 8)`. -/
theorem C10_glyph_within_circle_witness :
    ((4 : Int) - center 16) ^ 2 + ((6 : Int) - center 16) ^ 2 ≤ (radius 16) ^ 2 :=
  C10_glyph_within_circle 16 (by norm_num)
    { mode := Mode.RGBA, width := 16, height := 16, background := PURPLE,
      shapes := [Shape.ellipse 3 3 13 13 (some WHITE) none 1,
                 Shape.rect 4 6 8 7 PURPLE, Shape.rect 6 6 6 10 PURPLE] }
    [] rfl (Shape.rect 4 6 8 7 PURPLE) (by decide) (4, 6) (by decide)

end TwitchIcons
